import Mathlib

/-!
Shallow embedding of the sktime LTSF deep-learning forecaster code:
the windowed dataset adapter and dataloader builders
(src/sktime/networks/base.py), the LTSF linear-family network topology
builders and the series-decomposition block (src/sktime/networks/ltsf.py),
the forecaster constructor (src/sktime/forecasting/ltsf.py) and the TapNet
regressor constructor (src/sktime/regression/deep_learning/tapnet.py).

Numeric tensor values are modelled as rationals.  The external runtime's
random weight initialization is passed in explicitly as a stream of fresh
layers, and external collaborators (torch serialization, the sklearn
scaler, the dependency checkers living outside src) are modelled from the
spec where noted.
-/

namespace Sktime

/-- A linear layer of the external runtime (nn.Linear): weight matrix
(out_features rows of in_features entries) and bias vector. -/
structure LinearLayer where
  weight : List (List ℚ)
  bias : List ℚ
deriving DecidableEq

/-- Dot product of a weight row with an input vector. -/
def dot (r xs : List ℚ) : ℚ :=
  (List.zipWith (fun a b => a * b) r xs).sum

/-- nn.Linear forward on one vector: output j is weight row j dotted with
the input, plus bias j. -/
def LinearLayer.apply (l : LinearLayer) (xs : List ℚ) : List ℚ :=
  List.zipWith (fun row b => dot row xs + b) l.weight l.bias

/-- From src/sktime/networks/base.py, class PyTorchDataset: the stored
(possibly scaled) series and the two window lengths. -/
structure PyTorchDataset where
  y : List ℚ
  seq_len : ℕ
  pred_len : ℕ
deriving DecidableEq

/-- PyTorchDataset.__init__: stores y as given, or its elementwise image
under the fitted scaler when scale is set.  The sklearn StandardScaler is
external to the repository; on a single column it acts elementwise, so it
is modelled by the supplied map, which preserves the series length. -/
def PyTorchDataset.init (y : List ℚ) (seq_len pred_len : ℕ) (scale : Bool)
    (scaler : ℚ → ℚ) : PyTorchDataset :=
  ⟨if scale then y.map scaler else y, seq_len, pred_len⟩

/-- PyTorchDataset.__len__: len(self.y) - self.seq_len - self.pred_len + 1,
computed in unbounded integer arithmetic as Python does. -/
def PyTorchDataset.len (ds : PyTorchDataset) : ℤ :=
  (ds.y.length : ℤ) - ds.seq_len - ds.pred_len + 1

/-- PyTorchDataset.__getitem__: the pair
(self.y[i : i + seq_len], self.y[i + seq_len : i + seq_len + pred_len]).
The tensor/float casts of the external runtime are identities in the
rational model. -/
def PyTorchDataset.getItem (ds : PyTorchDataset) (i : ℕ) : List ℚ × List ℚ :=
  ((ds.y.drop i).take ds.seq_len,
    (ds.y.drop (i + ds.seq_len)).take ds.pred_len)

/-- A user-supplied custom dataset object: an identifying tag, and its
build_dataset method when that attribute is present and callable (none
models a missing or non-callable build_dataset). -/
structure CustomDataset where
  tag : String
  build_dataset : Option (List ℚ → List ℚ)

/-- Errors this code itself can raise while building dataloaders or
networks. -/
inductive PyError where
  | notImplementedError (msg : String)
  | attributeError
deriving DecidableEq

/-- The NotImplementedError message of build_pytorch_train_dataloader,
assembled exactly as the source concatenates its f-string pieces. -/
def buildDatasetMissingMsgTrain (clsName : String) : String :=
  "Custom Dataset `build_dataset` method is not available. Please " ++
    "refer to the " ++ clsName ++ ".build_dataset " ++ "documentation."

/-- The NotImplementedError message of build_pytorch_pred_dataloader,
assembled exactly as the source concatenates its f-string pieces (the
source omits the spaces around the pieces here). -/
def buildDatasetMissingMsgPred (clsName : String) : String :=
  "Custom Dataset `build_dataset` method is not available. Please" ++
    "refer to the " ++ clsName ++ ".build_dataset" ++ "documentation."

/-- The attributes of a BaseDeepNetworkPyTorch estimator that the two
dataloader builders read, together with the fitted network's window
lengths and the class name used in error messages. -/
structure EstimatorState where
  custom_dataset_train : Option CustomDataset
  custom_dataset_pred : Option CustomDataset
  batch_size : ℕ
  shuffle : Bool
  scale : Bool
  scaler : ℚ → ℚ
  network_seq_len : ℕ
  network_pred_len : ℕ
  clsName : String

/-- The dataset handed to a DataLoader: either a custom dataset object
(identified by its tag, holding the data its build_dataset produced) or a
built-in PyTorchDataset. -/
inductive DatasetObj where
  | custom (tag : String) (data : List ℚ)
  | builtin (ds : PyTorchDataset)

/-- A torch DataLoader as this code configures it: the dataset, the batch
size, and the shuffle flag. -/
structure DataLoader where
  dataset : DatasetObj
  batch_size : ℕ
  shuffle : Bool

/-- BaseDeepNetworkPyTorch.build_pytorch_train_dataloader: when
custom_dataset_train is supplied (truthy) and has a callable build_dataset,
call it on y and wrap that dataset; when it is supplied without one, raise
NotImplementedError; otherwise build a PyTorchDataset from y and the
network's window lengths. -/
def buildPytorchTrainDataloader (st : EstimatorState) (y : List ℚ) :
    Except PyError DataLoader :=
  match st.custom_dataset_train with
  | some ds =>
    match ds.build_dataset with
    | some f => .ok ⟨.custom ds.tag (f y), st.batch_size, st.shuffle⟩
    | none => .error (.notImplementedError (buildDatasetMissingMsgTrain st.clsName))
  | none =>
    .ok ⟨.builtin (PyTorchDataset.init y st.network_seq_len st.network_pred_len
      st.scale st.scaler), st.batch_size, st.shuffle⟩

/-- BaseDeepNetworkPyTorch.build_pytorch_pred_dataloader.  After the
truthiness and hasattr/callable checks on custom_dataset_pred, the source
calls self.custom_dataset_train.build_dataset(y) and uses
self.custom_dataset_train as the dataset; the attribute accesses on
custom_dataset_train can therefore raise AttributeError (when it is None
or lacks a callable build_dataset). -/
def buildPytorchPredDataloader (st : EstimatorState) (y : List ℚ) :
    Except PyError DataLoader :=
  match st.custom_dataset_pred with
  | some dsP =>
    match dsP.build_dataset with
    | some _ =>
      match st.custom_dataset_train with
      | some dsT =>
        match dsT.build_dataset with
        | some f => .ok ⟨.custom dsT.tag (f y), st.batch_size, st.shuffle⟩
        | none => .error .attributeError
      | none => .error .attributeError
    | none => .error (.notImplementedError (buildDatasetMissingMsgPred st.clsName))
  | none =>
    .ok ⟨.builtin (PyTorchDataset.init y st.network_seq_len st.network_pred_len
      st.scale st.scaler), st.batch_size, st.shuffle⟩

/-- A network branch holding either one shared nn.Linear or an nn.ModuleList
with one nn.Linear per channel. -/
inductive Branch where
  | single (l : LinearLayer)
  | perChannel (ls : List LinearLayer)
deriving DecidableEq

/-- The number of independent linear weight sets a branch holds. -/
def Branch.count : Branch → ℕ
  | .single _ => 1
  | .perChannel ls => ls.length

/-- The constructor arguments shared by the three outer topology-builder
classes in src/sktime/networks/ltsf.py: seq_len, pred_len, in_channels,
individual. -/
structure LTSFConfig where
  seq_len : ℕ
  pred_len : ℕ
  in_channels : ℕ
  individual : Bool
deriving DecidableEq

/-- The inner _LTSFLinearNetwork: configuration plus its Linear branch. -/
structure LinearNet where
  cfg : LTSFConfig
  Linear : Branch
deriving DecidableEq

/-- _LTSFLinearNetwork.__init__ as reached through LTSFLinearNetwork._build:
individual mode appends one nn.Linear(seq_len, pred_len) per channel to a
ModuleList, shared mode assigns a single nn.Linear.  fresh k is the k-th
nn.Linear created; its randomly initialized weights come from the external
runtime. -/
def LTSFLinearNetwork_build (cfg : LTSFConfig) (fresh : ℕ → LinearLayer) : LinearNet :=
  if cfg.individual then
    ⟨cfg, .perChannel ((List.range cfg.in_channels).map fresh)⟩
  else
    ⟨cfg, .single (fresh 0)⟩

/-- The inner _LTSFDLinearNetwork: configuration, the decomposition kernel
size handed to _series_decomp, and the seasonal and trend branches. -/
structure DLinearNet where
  cfg : LTSFConfig
  kernel_size : ℕ
  Linear_Seasonal : Branch
  Linear_Trend : Branch
deriving DecidableEq

/-- _LTSFDLinearNetwork.__init__ as reached through
LTSFDLinearNetwork._build: the decomposition kernel size is the literal 25;
individual mode appends one seasonal and one trend nn.Linear per channel,
shared mode reassigns both branches to single nn.Linear layers.  fresh k is
the k-th nn.Linear created (seasonal then trend within each iteration). -/
def LTSFDLinearNetwork_build (cfg : LTSFConfig) (fresh : ℕ → LinearLayer) : DLinearNet :=
  if cfg.individual then
    ⟨cfg, 25, .perChannel ((List.range cfg.in_channels).map fun k => fresh (2 * k)),
      .perChannel ((List.range cfg.in_channels).map fun k => fresh (2 * k + 1))⟩
  else
    ⟨cfg, 25, .single (fresh 0), .single (fresh 1)⟩

/-- The inner _LTSFNLinearNetwork: configuration and its Linear attribute,
which the constructor may leave unset (none). -/
structure NLinearNet where
  cfg : LTSFConfig
  Linear : Option Branch
deriving DecidableEq

/-- _LTSFNLinearNetwork.__init__ as reached through
LTSFNLinearNetwork._build: with individual=True the code appends to
self.Linear without ever assigning it first, so the first loop iteration
raises AttributeError; with zero channels the loop body never runs and the
Linear attribute is never set; shared mode assigns a single nn.Linear. -/
def LTSFNLinearNetwork_build (cfg : LTSFConfig) (fresh : ℕ → LinearLayer) :
    Except PyError NLinearNet :=
  if cfg.individual then
    if cfg.in_channels = 0 then .ok ⟨cfg, none⟩
    else .error .attributeError
  else .ok ⟨cfg, some (.single (fresh 0))⟩

/-- _LTSFLinearNetwork.forward on one batch element, as a list of
per-channel series: channel i is mapped by its own layer in individual
mode (the loop over range(in_channels)), or every channel by the shared
layer.  In-range indexing of the source is modelled totally with default
values. -/
def LinearNet.forward (net : LinearNet) (x : List (List ℚ)) : List (List ℚ) :=
  match net.Linear with
  | .single l => x.map l.apply
  | .perChannel ls =>
    (List.range net.cfg.in_channels).map fun i =>
      (ls.getD i ⟨[], []⟩).apply (x.getD i [])

/-- state_dict: all learned parameters of the network. -/
def LinearNet.state_dict (net : LinearNet) : Branch := net.Linear

/-- Modelled from the spec: BaseDeepNetworkPyTorch.save writes
self.network.state_dict() with torch.save, the external runtime's native
serialization (the torch save and load implementations live outside this
repository); loading the written file back returns the saved state dict
unchanged, so the save/load composition is the identity on state dicts. -/
def torchSaveLoad (sd : Branch) : Branch := sd

/-- load_state_dict on a network of the same configuration replaces its
learned parameters with the loaded ones. -/
def LinearNet.load_state_dict (net : LinearNet) (sd : Branch) : LinearNet :=
  ⟨net.cfg, sd⟩

/-- The _moving_avg.forward of _series_decomp, on one batch element and
channel, stride 1: replicate (kernel_size - 1) / 2 copies of the first and
last value onto the two ends, then average every window of kernel_size
consecutive values (AvgPool1d with padding 0).  An empty input is padded
with the default value 0 (the source fails on an empty series). -/
def movingAvgForward (kernel_size : ℕ) (x : List ℚ) : List ℚ :=
  let pad := (kernel_size - 1) / 2
  let padded := List.replicate pad (x.headD 0) ++ x ++ List.replicate pad (x.getLastD 0)
  (List.range (padded.length + 1 - kernel_size)).map fun j =>
    ((padded.drop j).take kernel_size).sum / kernel_size

/-- _series_decomp.forward: moving_mean = moving_avg(x),
res = x - moving_mean elementwise, returned as (res, moving_mean). -/
def seriesDecompForward (kernel_size : ℕ) (x : List ℚ) : List ℚ × List ℚ :=
  let moving_mean := movingAvgForward kernel_size x
  (List.zipWith (fun a b => a - b) x moving_mean, moving_mean)

/-- The instance attributes assigned in LTSFLinearForecaster.__init__
(src/sktime/forecasting/ltsf.py), in source order, including the
criterions and optimizers tables assigned after the torch check passes. -/
def ltsfForecasterAssignedAttrs : List String :=
  ["seq_len", "pred_len", "individual", "in_channels", "criterion",
    "optimizer", "criterion_kwargs", "optimizer_kwargs", "lr", "num_epochs",
    "custom_dataset_train", "custom_dataset_pred", "batch_size",
    "criterions", "optimizers"]

/-- The instance attributes the two dataloader builders in
src/sktime/networks/base.py read on self. -/
def dataloaderReadAttrs : List String :=
  ["custom_dataset_train", "custom_dataset_pred", "batch_size", "shuffle", "scale"]

/-- The configuration error raised when a required dependency is missing. -/
inductive DepError where
  | moduleNotFound
deriving DecidableEq

/-- Modelled from the spec: _check_soft_dependencies of
sktime.utils.validation._dependencies (implemented outside src) with its
default error severity raises a configuration error when the dependency is
missing and returns True when it is present. -/
def checkSoftDependencies (present : Bool) : Except DepError Bool :=
  if present then .ok true else .error .moduleNotFound

/-- Modelled from the spec: _check_dl_dependencies of
sktime.utils.validation._dependencies (implemented outside src) with error
severity raises a configuration error when the deep-learning dependency is
missing. -/
def checkDlDependencies (present : Bool) : Except DepError Unit :=
  if present then .ok () else .error .moduleNotFound

/-- The hyperparameters LTSFLinearForecaster.__init__ receives. -/
structure LTSFForecasterParams where
  seq_len : ℕ
  pred_len : ℕ
  num_epochs : ℕ
  batch_size : ℕ
  in_channels : ℕ
  individual : Bool
deriving DecidableEq

/-- LTSFLinearForecaster.__init__: assigns the hyperparameters, then runs
the torch soft-dependency check with its default error severity; the
criterion and optimizer tables are filled only after the check passes, and
a missing torch surfaces as the check's configuration error before the
constructor returns. -/
def LTSFLinearForecaster_construct (torchPresent : Bool) (p : LTSFForecasterParams) :
    Except DepError LTSFForecasterParams :=
  match checkSoftDependencies torchPresent with
  | .ok _ => .ok p
  | .error e => .error e

/-- The hyperparameters TapNetRegressor.__init__ receives (shape only). -/
structure TapNetParams where
  n_epochs : ℕ
  batch_size : ℕ
deriving DecidableEq

/-- TapNetRegressor.__init__: _check_dl_dependencies(severity error) runs
as the first statement, so a missing deep-learning dependency raises at
construction time before any attribute is assigned. -/
def TapNetRegressor_construct (dlPresent : Bool) (p : TapNetParams) :
    Except DepError TapNetParams :=
  match checkDlDependencies dlPresent with
  | .ok _ => .ok p
  | .error e => .error e

/-- Modelled from the spec: a DLinear topology configuration as section 2
of the spec describes it, carrying the decomposition kernel size as a
configuration parameter alongside the layer shapes. -/
structure SpecDLinearConfig where
  seq_len : ℕ
  pred_len : ℕ
  in_channels : ℕ
  individual : Bool
  kernel_size : ℕ
deriving DecidableEq

/-- Modelled from the spec: the kernel size the spec-described builder
hands to the moving-average decomposition is the configured one. -/
def specDLinearKernel (c : SpecDLinearConfig) : ℕ := c.kernel_size

/-- A concrete custom dataset whose build_dataset stores y unchanged. -/
def cdTrain : CustomDataset := ⟨"train", some fun ys => ys⟩

/-- A concrete custom dataset for prediction with a callable build_dataset. -/
def cdPred : CustomDataset := ⟨"pred", some fun ys => ys⟩

/-- A concrete custom dataset lacking a callable build_dataset. -/
def cdNoBuild : CustomDataset := ⟨"trainNoBuild", none⟩

/-- An estimator state supplying well-formed, distinct custom datasets for
training and prediction. -/
def stBoth : EstimatorState :=
  ⟨some cdTrain, some cdPred, 8, false, false, id, 4, 2, "LTSFLinearForecaster"⟩

/-- An estimator state whose prediction custom dataset is well-formed but
whose training custom dataset lacks a callable build_dataset. -/
def stCrossed : EstimatorState :=
  ⟨some cdNoBuild, some cdPred, 8, false, false, id, 4, 2, "LTSFLinearForecaster"⟩

/-- A concrete dataset fixture for the window-extraction witness. -/
def dsW : PyTorchDataset := ⟨[1, 2, 3, 4], 2, 1⟩

/-- A shared configuration for the save/reload fixture networks. -/
def cfgW : LTSFConfig := ⟨2, 1, 1, false⟩

/-- A fixture network with concrete learned parameters. -/
def netA : LinearNet := ⟨cfgW, .single ⟨[[1, 2]], [3]⟩⟩

/-- A second fixture network of the same configuration with different
parameters, standing for a freshly initialized network of the same
configuration. -/
def netB : LinearNet := ⟨cfgW, .single ⟨[[4, 5]], [6]⟩⟩

/-- Elementwise (x - m) + m recovers x for lists of equal length. -/
theorem zipWith_sub_add (x m : List ℚ) (h : m.length = x.length) :
    List.zipWith (fun a b => a + b) (List.zipWith (fun a b => a - b) x m) m = x := by
  induction x generalizing m with
  | nil => simp
  | cons a xs ih =>
    cases m with
    | nil => simp at h
    | cons b ms =>
      have hms : ms.length = xs.length := by simpa using h
      simp [ih ms hms]

/-- For an odd kernel size, the replicate padding of (kernel - 1) / 2 on
each end makes the stride-1 moving average length-preserving. -/
theorem movingAvg_length (k : ℕ) (x : List ℚ) (hk : k % 2 = 1) :
    (movingAvgForward k x).length = x.length := by
  simp [movingAvgForward]
  omega

/-- C1: for an input sequence of length N with configured sequence length
L and prediction length T, PyTorchDataset reports exactly N - L - T + 1
windowed samples: its __len__ returns N - L - T + 1, with or without
scaling. -/
theorem pytorch_dataset_len_eq (y : List ℚ) (L T : ℕ) (scale : Bool)
    (scaler : ℚ → ℚ) :
    (PyTorchDataset.init y L T scale scaler).len = (y.length : ℤ) - L - T + 1 := by
  unfold PyTorchDataset.init PyTorchDataset.len
  cases scale <;> simp

/-- C3: for a valid index i, __getitem__ returns the input window of length
seq_len starting at i and the target window of length pred_len starting
immediately after it, both contiguous slices of the one underlying stored
sequence, and their concatenation is the contiguous slice of length
seq_len + pred_len starting at i. -/
theorem pytorch_dataset_getitem_windows (ds : PyTorchDataset) (i : ℕ)
    (h : i + ds.seq_len + ds.pred_len ≤ ds.y.length) :
    (ds.getItem i).1 = (ds.y.drop i).take ds.seq_len ∧
    (ds.getItem i).2 = (ds.y.drop (i + ds.seq_len)).take ds.pred_len ∧
    (ds.getItem i).1.length = ds.seq_len ∧
    (ds.getItem i).2.length = ds.pred_len ∧
    (ds.getItem i).1 ++ (ds.getItem i).2 =
      (ds.y.drop i).take (ds.seq_len + ds.pred_len) := by
  refine ⟨rfl, rfl, ?_, ?_, ?_⟩
  · simp [PyTorchDataset.getItem]
    omega
  · simp [PyTorchDataset.getItem]
    omega
  · simp only [PyTorchDataset.getItem]
    rw [List.take_add]
    congr 1
    rw [List.drop_drop]

/-- Witness for C3 at a concrete dataset and index. -/
theorem pytorch_dataset_getitem_windows_witness :
    (1 + dsW.seq_len + dsW.pred_len ≤ dsW.y.length) ∧
    ((dsW.getItem 1).1 = (dsW.y.drop 1).take dsW.seq_len ∧
      (dsW.getItem 1).2 = (dsW.y.drop (1 + dsW.seq_len)).take dsW.pred_len ∧
      (dsW.getItem 1).1.length = dsW.seq_len ∧
      (dsW.getItem 1).2.length = dsW.pred_len ∧
      (dsW.getItem 1).1 ++ (dsW.getItem 1).2 =
        (dsW.y.drop 1).take (dsW.seq_len + dsW.pred_len)) :=
  ⟨by decide, pytorch_dataset_getitem_windows dsW 1 (by decide)⟩

/-- C2 (code bug evaluation): building LTSFNLinearNetwork with
individual=True and one input channel raises AttributeError instead of
yielding one independent weight set per channel, because the constructor
appends to the never-assigned Linear attribute. -/
theorem nlinear_individual_build_attribute_error :
    LTSFNLinearNetwork_build ⟨2, 1, 1, true⟩ (fun _ => ⟨[], []⟩) =
      Except.error PyError.attributeError := rfl

/-- The Linear and DLinear builders do hold in_channels independent weight
sets per branch in individual mode and exactly one in shared mode. -/
theorem linear_dlinear_weight_set_counts (cfg : LTSFConfig)
    (fresh : ℕ → LinearLayer) :
    (LTSFLinearNetwork_build cfg fresh).Linear.count =
      (if cfg.individual then cfg.in_channels else 1) ∧
    (LTSFDLinearNetwork_build cfg fresh).Linear_Seasonal.count =
      (if cfg.individual then cfg.in_channels else 1) ∧
    (LTSFDLinearNetwork_build cfg fresh).Linear_Trend.count =
      (if cfg.individual then cfg.in_channels else 1) := by
  unfold LTSFLinearNetwork_build LTSFDLinearNetwork_build
  cases hc : cfg.individual <;> simp [hc, Branch.count]

/-- C4 (code bug evaluation): with well-formed, distinct custom datasets
supplied for training and prediction, build_pytorch_pred_dataloader calls
build_dataset on custom_dataset_train and returns a DataLoader over the
training custom dataset, not the prediction one. -/
theorem pred_dataloader_uses_train_dataset :
    buildPytorchPredDataloader stBoth [5] =
      Except.ok ⟨.custom "train" [5], 8, false⟩ := rfl

/-- C5: saving a fitted network's complete state dict through the external
serialization and loading it into a network of the same configuration
reproduces identical predictions on every input. -/
theorem save_load_roundtrip_predictions (net1 net2 : LinearNet)
    (x : List (List ℚ)) (hcfg : net2.cfg = net1.cfg) :
    (net2.load_state_dict (torchSaveLoad net1.state_dict)).forward x =
      net1.forward x := by
  unfold LinearNet.load_state_dict torchSaveLoad LinearNet.state_dict
    LinearNet.forward
  rw [hcfg]

/-- Witness for C5 on two concrete same-configuration networks. -/
theorem save_load_roundtrip_witness :
    netB.cfg = netA.cfg ∧
    ((netB.load_state_dict (torchSaveLoad netA.state_dict)).forward [[7, 8]] =
      netA.forward [[7, 8]]) :=
  ⟨rfl, save_load_roundtrip_predictions netA netB [[7, 8]] rfl⟩

/-- C6 (counterexample): the spec-described configuration carries the
decomposition kernel size (here 7), but the code builder exposes no
kernel-size parameter and builds a decomposition with kernel size 25. -/
theorem dlinear_kernel_counterexample :
    specDLinearKernel ⟨10, 3, 1, false, 7⟩ = 7 ∧
    (LTSFDLinearNetwork_build ⟨10, 3, 1, false⟩ (fun _ => ⟨[], []⟩)).kernel_size = 25 ∧
    (25 : ℕ) ≠ 7 :=
  ⟨rfl, rfl, by decide⟩

/-- C6 (amended): the decomposition kernel size is not a configuration
parameter of the DLinear topology builder; every built network's
moving-average decomposition uses the fixed kernel size 25. -/
theorem dlinear_kernel_always_25 (cfg : LTSFConfig) (fresh : ℕ → LinearLayer) :
    (LTSFDLinearNetwork_build cfg fresh).kernel_size = 25 := by
  unfold LTSFDLinearNetwork_build
  split <;> rfl

/-- C7 (code bug evaluation): with a well-formed prediction custom dataset
and a malformed training custom dataset, build_pytorch_pred_dataloader
raises AttributeError rather than the NotImplementedError naming
build_dataset, because after checking custom_dataset_pred the source
accesses build_dataset on custom_dataset_train. -/
theorem pred_dataloader_attribute_error_on_malformed_train :
    buildPytorchPredDataloader stCrossed [5] =
      Except.error PyError.attributeError := rfl

/-- C8 (code bug evaluation): the dataloader builders read the shuffle and
scale attributes, but LTSFLinearForecaster.__init__ never assigns either,
so the builders fail with an attribute-access error on every instance. -/
theorem ltsf_forecaster_missing_shuffle_scale :
    "shuffle" ∈ dataloaderReadAttrs ∧
    "shuffle" ∉ ltsfForecasterAssignedAttrs ∧
    "scale" ∈ dataloaderReadAttrs ∧
    "scale" ∉ ltsfForecasterAssignedAttrs := by decide

/-- C9: both estimator constructors raise the configuration error at
construction time exactly when the required deep-learning dependency is
missing, and raise no such error when it is present. -/
theorem constructor_dependency_error (present : Bool)
    (p : LTSFForecasterParams) (q : TapNetParams) :
    (LTSFLinearForecaster_construct present p = .error DepError.moduleNotFound ↔
      present = false) ∧
    (TapNetRegressor_construct present q = .error DepError.moduleNotFound ↔
      present = false) := by
  cases present <;>
    simp [LTSFLinearForecaster_construct, TapNetRegressor_construct,
      checkSoftDependencies, checkDlDependencies]

/-- C10: for a nonempty series and the odd decomposition kernel size, the
series-decomposition block returns (res, moving_mean) with moving_mean of
the same length as the input, and res + moving_mean recovers the input
exactly. -/
theorem series_decomp_exact (k : ℕ) (x : List ℚ) (hk : k % 2 = 1)
    (hx : x ≠ []) :
    (seriesDecompForward k x).2.length = x.length ∧
    List.zipWith (fun a b => a + b) (seriesDecompForward k x).1
      (seriesDecompForward k x).2 = x := by
  have _hne := hx
  have hlen : (movingAvgForward k x).length = x.length := movingAvg_length k x hk
  exact ⟨hlen, zipWith_sub_add x _ hlen⟩

/-- Witness for C10 at the kernel size 25 the DLinear network uses. -/
theorem series_decomp_exact_witness :
    (25 % 2 = 1) ∧ (([1] : List ℚ) ≠ []) ∧
    ((seriesDecompForward 25 [1]).2.length = ([1] : List ℚ).length ∧
      List.zipWith (fun a b => a + b) (seriesDecompForward 25 [1]).1
        (seriesDecompForward 25 [1]).2 = [1]) :=
  ⟨by decide, by decide, series_decomp_exact 25 [1] (by decide) (by decide)⟩

end Sktime
